import Mathlib

/-!
Shallow embedding of `src/as-release.c` (AppStream release records and their
XML / YAML / binary-cache codecs).

Conventions of the embedding:
* `gchar*` values that may be NULL become `Option String`; a non-null C string
  becomes a `String`.
* C enums (`AsReleaseKind`, `AsUrgencyKind`, `AsSizeKind`) are stored as the
  `Nat` codes the C code stores and serializes (`unknown` = 0).  The valid
  `AsSizeKind` range is `0 ≤ kind < AS_SIZE_KIND_LAST = 3` with
  `AS_SIZE_KIND_UNKNOWN = 0`, `AS_SIZE_KIND_DOWNLOAD = 1`,
  `AS_SIZE_KIND_INSTALLED = 2`.
* `guint64` fields become `Nat` (no arithmetic in this file ever approaches an
  overflow boundary; the codecs move the stored word around unchanged).
* The `GHashTable` of descriptions becomes an association list whose `insert`
  replaces the value of an existing key in place; a stored NULL value and an
  absent key are indistinguishable to `g_hash_table_lookup`, which the lookup
  function below reproduces by returning the joined `Option String`.
* Stateful C functions become Lean functions from the record to the updated
  record; load routines return `Bool × AsRelease` mirroring their `gboolean`
  result.
-/

/-- Format style of the document `AsContext` (`AS_FORMAT_STYLE_COLLECTION` vs
metainfo/single-document style). -/
inductive AsFormatStyle where
  | collection
  | metainfo
deriving DecidableEq, Repr

/-- The external shared document context (`AsContext`), reduced to the fields
`as-release.c` consumes: active locale (nullable), format style, filename. -/
structure AsContext where
  locale : Option String
  style : AsFormatStyle
  filename : String
deriving DecidableEq, Repr

/-- A checksum sub-record.  The checksum codec is an external collaborator
(`as-checksum.c`); only its kind and an opaque payload are modelled. -/
structure AsChecksum where
  kind : Nat
  payload : String
deriving DecidableEq, Repr

/-- In-memory state of an `AsRelease` (the `AsReleasePrivate` struct).
The fixed `guint64 size[AS_SIZE_KIND_LAST]` array (`AS_SIZE_KIND_LAST = 3`)
is unrolled into the three fields `size_unknown`, `size_download`,
`size_installed`. -/
structure AsRelease where
  kind : Nat
  version : Option String
  description : List (String × Option String)
  timestamp : Nat
  context : Option AsContext
  active_locale_override : Option String
  locations : List String
  checksums : List AsChecksum
  size_unknown : Nat
  size_download : Nat
  size_installed : Nat
  urgency : Nat
deriving DecidableEq, Repr

/-- C function `g_hash_table_lookup` on the description table: an absent key and a key
stored with a NULL value both yield NULL. -/
def hashLookup (d : List (String × Option String)) (k : String) : Option String :=
  match d.find? (fun p => p.1 == k) with
  | some p => p.2
  | none => none

/-- C function `g_hash_table_insert`: replaces the value of an existing key, otherwise
adds the pair. -/
def hashInsert (d : List (String × Option String)) (k : String) (v : Option String) :
    List (String × Option String) :=
  if d.any (fun p => p.1 == k) then
    d.map (fun p => if p.1 == k then (k, v) else p)
  else
    d ++ [(k, v)]

/-- C function `as_release_kind_from_string`: `"stable"` / `"development"` or Unknown (0).
Takes an `Option String` because `g_strcmp0` tolerates NULL (NULL compares
unequal to any literal, giving Unknown). -/
def as_release_kind_from_string (kind_str : Option String) : Nat :=
  if kind_str == some "stable" then 1
  else if kind_str == some "development" then 2
  else 0

/-- C function `as_size_kind_from_string`: `"download"` → 1, `"installed"` → 2, otherwise
`AS_SIZE_KIND_UNKNOWN` = 0 (also for a NULL argument, via `g_strcmp0`). -/
def as_size_kind_from_string (size_kind : Option String) : Nat :=
  if size_kind == some "download" then 1
  else if size_kind == some "installed" then 2
  else 0

/-- Modelled from the spec: `as_urgency_kind_from_string` lives in
`as-enums.c`, which is not part of the extracted sources.  Per the spec it is a
closed string table with "unknown string → Unknown variant, never an error". -/
def as_urgency_kind_from_string (urgency_str : Option String) : Nat :=
  if urgency_str == some "low" then 1
  else if urgency_str == some "medium" then 2
  else if urgency_str == some "high" then 3
  else if urgency_str == some "critical" then 4
  else 0

/-- C `atol` as used on the `timestamp` XML attribute and `unix-timestamp`
YAML value: reads leading decimal digits (non-numeric input yields 0).  Sign
and whitespace handling are irrelevant to every claim and omitted. -/
def atol (s : String) : Nat :=
  (s.toList.takeWhile Char.isDigit).foldl (fun acc c => acc * 10 + (c.toNat - 48)) 0

/-- C function `g_ascii_strtoull` on the text content of a size element, base 10. -/
def g_ascii_strtoull (s : String) : Nat :=
  atol s

/-- Split a character list at each dash. -/
def splitDashAux (l : List Char) (acc : List Char) : List (List Char) :=
  match l with
  | [] => [acc.reverse]
  | c :: rest =>
    if c = '-' then acc.reverse :: splitDashAux rest []
    else splitDashAux rest (c :: acc)

/-- Split a character list into its dash-separated components. -/
def splitDash (l : List Char) : List (List Char) :=
  splitDashAux l []

/-- Read a non-empty all-digit character list as a decimal number. -/
def digitsToNat? (l : List Char) : Option Nat :=
  if l.isEmpty then none
  else if l.all Char.isDigit then
    some (l.foldl (fun acc c => acc * 10 + (c.toNat - 48)) 0)
  else none

/-- Modelled from the spec: `as_iso8601_to_datetime` (in `as-utils.c`, outside
the extracted sources) converts an ISO-8601 date to unix time and fails (NULL)
on malformed input.  The model accepts the `YYYY-MM-DD` shape with a sane
year/month/day range; the exact epoch arithmetic is irrelevant to every claim
(only success and failure are ever observed), so a simplified day count is
used. -/
def as_iso8601_to_datetime (s : String) : Option Nat :=
  match splitDash s.toList with
  | [y, m, d] =>
    match digitsToNat? y, digitsToNat? m, digitsToNat? d with
    | some yn, some mn, some dn =>
      if 1970 ≤ yn ∧ 1 ≤ mn ∧ mn ≤ 12 ∧ 1 ≤ dn ∧ dn ≤ 31 then
        some (((yn - 1970) * 365 + (mn - 1) * 31 + (dn - 1)) * 86400)
      else none
    | _, _, _ => none
  | _ => none

/-- C function `as_release_init` / `as_release_new`: stable kind, empty containers,
everything else zero / NULL. -/
def as_release_new : AsRelease :=
  { kind := 1
    version := none
    description := []
    timestamp := 0
    context := none
    active_locale_override := none
    locations := []
    checksums := []
    size_unknown := 0
    size_download := 0
    size_installed := 0
    urgency := 0 }

/-- C function `as_release_set_version`: `g_free` the old string, `g_strdup` the new one
(NULL stays NULL). -/
def as_release_set_version (r : AsRelease) (version : Option String) : AsRelease :=
  { r with version := version }

/-- C function `as_release_get_size`: `g_return_val_if_fail (kind < AS_SIZE_KIND_LAST, 0)`,
then read the array slot. -/
def as_release_get_size (r : AsRelease) (kind : Nat) : Nat :=
  if kind < 3 then
    match kind with
    | 0 => r.size_unknown
    | 1 => r.size_download
    | _ => r.size_installed
  else 0

/-- C function `as_release_set_size`: `g_return_if_fail (kind < AS_SIZE_KIND_LAST)` and
`g_return_if_fail (kind != 0)` make out-of-range and unknown kinds a no-op;
otherwise the slot is assigned. -/
def as_release_set_size (r : AsRelease) (size kind : Nat) : AsRelease :=
  if kind < 3 then
    if kind = 0 then r
    else if kind = 1 then { r with size_download := size }
    else { r with size_installed := size }
  else r

/-- C function `as_release_get_active_locale`: context locale unless an override is set,
then a NULL result falls back to the literal `"C"`. -/
def as_release_get_active_locale (r : AsRelease) : String :=
  let locale : Option String :=
    match r.context, r.active_locale_override with
    | some ctx, none => ctx.locale
    | _, _ => r.active_locale_override
  match locale with
  | none => "C"
  | some l => l

/-- C function `as_release_set_active_locale`: replaces the per-instance override. -/
def as_release_set_active_locale (r : AsRelease) (locale : Option String) : AsRelease :=
  { r with active_locale_override := locale }

/-- C function `as_release_get_description`: look up the active locale, fall back to the
`"C"` entry. -/
def as_release_get_description (r : AsRelease) : Option String :=
  match hashLookup r.description (as_release_get_active_locale r) with
  | some desc => some desc
  | none => hashLookup r.description "C"

/-- C function `as_release_set_description`: a NULL locale argument targets the active
locale. -/
def as_release_set_description (r : AsRelease) (description : Option String)
    (locale : Option String) : AsRelease :=
  let loc :=
    match locale with
    | some l => l
    | none => as_release_get_active_locale r
  { r with description := hashInsert r.description loc description }

/-- C function `as_release_add_location`: append. -/
def as_release_add_location (r : AsRelease) (location : String) : AsRelease :=
  { r with locations := r.locations ++ [location] }

/-- C function `as_release_add_checksum`: append, no dedup. -/
def as_release_add_checksum (r : AsRelease) (cs : AsChecksum) : AsRelease :=
  { r with checksums := r.checksums ++ [cs] }

/-- C function `as_release_get_checksum`: first stored entry of the given kind. -/
def as_release_get_checksum (r : AsRelease) (kind : Nat) : Option AsChecksum :=
  r.checksums.find? (fun cs => cs.kind == kind)

/-- C function `as_release_set_context`: replace the context reference and unconditionally
clear the per-instance locale override. -/
def as_release_set_context (r : AsRelease) (context : AsContext) : AsRelease :=
  { r with context := some context, active_locale_override := none }

/-- One child element of a `<release>` XML node, carrying exactly the data the
loader extracts from it.  A `checksum` child carries the result of the external
`as_checksum_load_from_xml` sub-parse (`none` = sub-parse failed).  A
`description` child carries both views the two parse strategies can take of it:
the node-level language attribute with the verbatim inner markup (collection
style), and the per-locale text blobs the shared metainfo description parser
extracts (single-document style); both shared parsers are external
collaborators. -/
inductive XmlChild where
  | location (content : String)
  | checksum (subload : Option AsChecksum)
  | size (typeAttr : Option String) (content : String)
  | description (langAttr : Option String) (markup : String)
      (localized : List (String × String))
  | other (name : String)
deriving DecidableEq, Repr

/-- A `<release>` XML element: its attributes and element children. -/
structure XmlNode where
  attrs : List (String × String)
  children : List XmlChild
deriving DecidableEq, Repr

/-- C function `xmlGetProp`: attribute lookup, NULL when absent. -/
def xmlGetProp (node : XmlNode) (name : String) : Option String :=
  (node.attrs.find? (fun p => p.1 == name)).map (fun p => p.2)

/-- The fold over the per-locale blobs which
`as_release_parse_xml_metainfo_description_cb` performs: each discovered
locale/text pair is stored via `as_release_set_description`. -/
def as_release_parse_xml_metainfo_description (r : AsRelease)
    (localized : List (String × String)) : AsRelease :=
  localized.foldl (fun acc p => as_release_set_description acc (some p.2) (some p.1)) r

/-- One iteration of the child loop in `as_release_load_from_xml`. -/
def as_release_load_xml_child (ctx : AsContext) (r : AsRelease) (c : XmlChild) : AsRelease :=
  match c with
  | XmlChild.location content => as_release_add_location r content
  | XmlChild.checksum subload =>
    match subload with
    | some cs => as_release_add_checksum r cs
    | none => r
  | XmlChild.size typeAttr content =>
    let s_kind := as_size_kind_from_string typeAttr
    if s_kind ≠ 0 then
      let size := g_ascii_strtoull content
      if size > 0 then as_release_set_size r size s_kind else r
    else r
  | XmlChild.description langAttr markup localized =>
    if ctx.style = AsFormatStyle.collection then
      match langAttr with
      | some lang => as_release_set_description r (some markup) (some lang)
      | none => r
    else
      as_release_parse_xml_metainfo_description r localized
  | XmlChild.other _ => r

/-- C function `as_release_load_from_xml`: propagate the context, scan the `type`,
`version`, `date`, `timestamp`, `urgency` attributes in that order, then walk
the children; always returns TRUE. -/
def as_release_load_from_xml (r : AsRelease) (ctx : AsContext) (node : XmlNode) :
    Bool × AsRelease :=
  let r := as_release_set_context r ctx
  let r :=
    match xmlGetProp node "type" with
    | some p => { r with kind := as_release_kind_from_string (some p) }
    | none => r
  let r := as_release_set_version r (xmlGetProp node "version")
  let r :=
    match xmlGetProp node "date" with
    | some p =>
      match as_iso8601_to_datetime p with
      | some t => { r with timestamp := t }
      | none => r
    | none => r
  let r :=
    match xmlGetProp node "timestamp" with
    | some p => { r with timestamp := atol p }
    | none => r
  let r :=
    match xmlGetProp node "urgency" with
    | some p => { r with urgency := as_urgency_kind_from_string (some p) }
    | none => r
  let r := node.children.foldl (as_release_load_xml_child ctx) r
  (true, r)

/-- One key/value child of a YAML release mapping.  `value` is the scalar
value (`as_yaml_node_get_value`, NULL for non-scalar nodes); `localized` is
what the external `as_yaml_get_localized_value` helper extracts from the node
when it is treated as a localized description block. -/
structure YamlChild where
  key : String
  value : Option String
  localized : Option String
deriving DecidableEq, Repr

/-- A YAML release mapping node. -/
structure YamlNode where
  children : List YamlChild
deriving DecidableEq, Repr

/-- One iteration of the key loop in `as_release_load_from_yaml`; unknown keys
are logged and skipped. -/
def as_release_load_yaml_child (ctx : AsContext) (r : AsRelease) (n : YamlChild) : AsRelease :=
  if n.key == "unix-timestamp" then
    { r with timestamp := atol ((n.value).getD "") }
  else if n.key == "date" then
    match n.value with
    | some v =>
      match as_iso8601_to_datetime v with
      | some t => { r with timestamp := t }
      | none => r
    | none => r
  else if n.key == "type" then
    { r with kind := as_release_kind_from_string n.value }
  else if n.key == "version" then
    as_release_set_version r n.value
  else if n.key == "urgency" then
    { r with urgency := as_urgency_kind_from_string n.value }
  else if n.key == "description" then
    as_release_set_description r n.localized none
  else r

/-- C function `as_release_load_from_yaml`: propagate the context, iterate the mapping
keys; always returns TRUE. -/
def as_release_load_from_yaml (r : AsRelease) (ctx : AsContext) (node : YamlNode) :
    Bool × AsRelease :=
  let r := as_release_set_context r ctx
  let r := node.children.foldl (as_release_load_yaml_child ctx) r
  (true, r)

/-- The binary cache entry a release serializes to (`as_release_to_variant`):
a keyed structural record.  Each field is `some`/`none` for key present /
key absent; the structure fields are listed in the fixed order the serializer
emits them in, so two cache entries are byte-for-byte equal exactly when these
structures are equal.  `version` and `description` values are maybe-strings
(`as_variant_mstring_new`), checksum sub-entries are keyed by their numeric
kind with an opaque payload (external checksum sub-codec, modelled from the
spec), size sub-entries are `SizeKind ↦ u64` pairs. -/
structure RelVariant where
  kind : Option Nat
  version : Option (Option String)
  timestamp : Option Nat
  urgency : Option Nat
  description : Option (Option String)
  locations : Option (List String)
  checksums : Option (List (Nat × String))
  sizes : Option (List (Nat × Nat))
deriving DecidableEq, Repr

/-- Modelled from the spec: `as_checksum_to_variant` (external sub-codec) emits
one dictionary entry keyed by the checksum kind. -/
def as_checksum_to_variant (cs : AsChecksum) : Nat × String :=
  (cs.kind, cs.payload)

/-- Modelled from the spec: `as_checksum_set_from_variant` (external sub-codec)
reconstructs a checksum from its dictionary entry, reporting success. -/
def as_checksum_set_from_variant (e : Nat × String) : Option AsChecksum :=
  some { kind := e.1, payload := e.2 }

/-- Modelled from the spec: `as_variant_from_string_ptrarray`
(`as-variant-cache.c`, outside the extracted sources) returns NULL for an empty
array, so the `locations` key is omitted entirely when the list is empty. -/
def as_variant_from_string_ptrarray (l : List String) : Option (List String) :=
  if l.isEmpty then none else some l

/-- The sizes dictionary built by the `j = 0 .. AS_SIZE_KIND_LAST-1` loop of
`as_release_to_variant`, unrolled: one `(kind, size)` entry per slot with a
stored value > 0. -/
def sizesVariantList (r : AsRelease) : List (Nat × Nat) :=
  (if 0 < as_release_get_size r 0 then [(0, as_release_get_size r 0)] else []) ++
  (if 0 < as_release_get_size r 1 then [(1, as_release_get_size r 1)] else []) ++
  (if 0 < as_release_get_size r 2 then [(2, as_release_get_size r 2)] else [])

/-- C function `as_release_to_variant`: serialize the current active state of the record.
The five scalar keys are always emitted; `locations`, `checksums`, `sizes` are
emitted only when non-empty.  The description value is the single string
active at serialization time (`as_release_get_description`). -/
def as_release_to_variant (r : AsRelease) : RelVariant :=
  let sizesList := sizesVariantList r
  { kind := some r.kind
    version := some r.version
    timestamp := some r.timestamp
    urgency := some r.urgency
    description := some (as_release_get_description r)
    locations := as_variant_from_string_ptrarray r.locations
    checksums :=
      if r.checksums.isEmpty then none else some (r.checksums.map as_checksum_to_variant)
    sizes := if sizesList.isEmpty then none else some sizesList }

/-- The iteration over the `sizes` sub-dictionary in
`as_release_set_from_variant`: each entry goes through `as_release_set_size`. -/
def as_variant_sizes_fold (r : AsRelease) (l : List (Nat × Nat)) : AsRelease :=
  l.foldl (fun acc e => as_release_set_size acc e.2 e.1) r

/-- The iteration over the `checksums` sub-dictionary in
`as_release_set_from_variant`: each successfully reconstructed checksum is
appended. -/
def as_variant_checksums_fold (r : AsRelease) (l : List (Nat × String)) : AsRelease :=
  l.foldl
    (fun acc e =>
      match as_checksum_set_from_variant e with
      | some cs => as_release_add_checksum acc cs
      | none => acc)
    r

/-- C function `as_release_set_from_variant`: read the record back from a cache entry with
an explicitly supplied target locale.  Absent `kind` / `timestamp` / `urgency`
keys read as 0 (`as_variant_get_dict_uint32` and the GVariant u64 read both
yield 0 for a missing key — modelled from the spec: those helpers live in
`as-variant-cache.c` / GLib, outside the extracted sources); an absent
`version` or `description` key reads as a NULL maybe-string; absent
`locations` / `sizes` / `checksums` are skipped.  Always returns TRUE. -/
def as_release_set_from_variant (r : AsRelease) (v : RelVariant) (locale : Option String) :
    Bool × AsRelease :=
  let r := as_release_set_active_locale r locale
  let r := { r with kind := (v.kind).getD 0 }
  let r := as_release_set_version r ((v.version).getD none)
  let r := { r with timestamp := (v.timestamp).getD 0 }
  let r := { r with urgency := (v.urgency).getD 0 }
  let r := as_release_set_description r ((v.description).getD none) locale
  let r := { r with locations := r.locations ++ (v.locations).getD [] }
  let r := as_variant_sizes_fold r ((v.sizes).getD [])
  let r := as_variant_checksums_fold r ((v.checksums).getD [])
  (true, r)

/-! ## Concrete fixtures used by witnesses and concrete claims -/

/-- A collection-style context with no document locale. -/
def ctxCollection : AsContext :=
  { locale := none, style := AsFormatStyle.collection, filename := "release.xml" }

/-- An XML release element carrying both a `date` and a `timestamp` attribute. -/
def xmlPrecedenceNode : XmlNode :=
  { attrs := [("date", "2020-01-01"), ("timestamp", "500")], children := [] }

/-- An XML release element with no attributes and no children. -/
def xmlEmptyNode : XmlNode :=
  { attrs := [], children := [] }

/-- An XML release element whose only attribute is a malformed ISO-8601 date. -/
def xmlBadDateNode : XmlNode :=
  { attrs := [("date", "not-a-date")], children := [] }

/-- A YAML release mapping with no keys. -/
def yamlEmptyNode : YamlNode :=
  { children := [] }

/-- A release with `description["de"] = "Text"` and active locale `"de"`,
built through the accessors. -/
def relGermanText : AsRelease :=
  as_release_set_description
    (as_release_set_active_locale as_release_new (some "de")) (some "Text") none

/-- A populated release used to exercise the binary-cache round trip. -/
def relPopulated : AsRelease :=
  { as_release_new with
    kind := 2
    version := some "1.2"
    description := [("C", some "desc")]
    timestamp := 1000
    locations := ["https://example.org/a", "https://example.org/a"]
    checksums := [{ kind := 1, payload := "aa" }, { kind := 1, payload := "bb" }]
    size_download := 2048
    urgency := 3 }

/-- A release with non-default scalar fields, used to observe which XML
attributes overwrite what. -/
def relPrefilled : AsRelease :=
  { as_release_new with
    kind := 2
    version := some "0.9"
    timestamp := 42
    urgency := 3 }

/-- A release with a German description entry and a German locale override. -/
def relGermanLookup : AsRelease :=
  { as_release_new with
    description := [("de", some "Hallo")]
    active_locale_override := some "de" }

/-! ## Helper lemmas -/

theorem hashLookup_singleton_self (k : String) (v : Option String) :
    hashLookup [(k, v)] k = v := by
  simp [hashLookup, List.find?]

theorem hashLookup_singleton_none (k k' : String) :
    hashLookup [(k, none)] k' = none := by
  by_cases h : k = k'
  · simp [hashLookup, List.find?, h]
  · have hb : (k == k') = false := beq_eq_false_iff_ne.mpr h
    simp [hashLookup, List.find?, hb]

theorem hashInsert_nil (k : String) (v : Option String) :
    hashInsert [] k v = [(k, v)] := by
  simp [hashInsert]

theorem as_release_set_size_frame (r : AsRelease) (size kind : Nat) :
    (as_release_set_size r size kind).kind = r.kind
    ∧ (as_release_set_size r size kind).version = r.version
    ∧ (as_release_set_size r size kind).description = r.description
    ∧ (as_release_set_size r size kind).timestamp = r.timestamp
    ∧ (as_release_set_size r size kind).context = r.context
    ∧ (as_release_set_size r size kind).active_locale_override = r.active_locale_override
    ∧ (as_release_set_size r size kind).locations = r.locations
    ∧ (as_release_set_size r size kind).checksums = r.checksums
    ∧ (as_release_set_size r size kind).urgency = r.urgency
    ∧ (as_release_set_size r size kind).size_unknown = r.size_unknown := by
  unfold as_release_set_size
  split_ifs <;> exact ⟨rfl, rfl, rfl, rfl, rfl, rfl, rfl, rfl, rfl, rfl⟩

theorem as_variant_sizes_fold_frame (l : List (Nat × Nat)) (r : AsRelease) :
    (as_variant_sizes_fold r l).kind = r.kind
    ∧ (as_variant_sizes_fold r l).version = r.version
    ∧ (as_variant_sizes_fold r l).description = r.description
    ∧ (as_variant_sizes_fold r l).timestamp = r.timestamp
    ∧ (as_variant_sizes_fold r l).context = r.context
    ∧ (as_variant_sizes_fold r l).active_locale_override = r.active_locale_override
    ∧ (as_variant_sizes_fold r l).locations = r.locations
    ∧ (as_variant_sizes_fold r l).checksums = r.checksums
    ∧ (as_variant_sizes_fold r l).urgency = r.urgency
    ∧ (as_variant_sizes_fold r l).size_unknown = r.size_unknown := by
  induction l generalizing r with
  | nil => exact ⟨rfl, rfl, rfl, rfl, rfl, rfl, rfl, rfl, rfl, rfl⟩
  | cons e t ih =>
    have hset := as_release_set_size_frame r e.2 e.1
    have ht := ih (as_release_set_size r e.2 e.1)
    simp only [as_variant_sizes_fold, List.foldl_cons] at ht ⊢
    exact ⟨ht.1.trans hset.1, ht.2.1.trans hset.2.1, ht.2.2.1.trans hset.2.2.1,
      ht.2.2.2.1.trans hset.2.2.2.1, ht.2.2.2.2.1.trans hset.2.2.2.2.1,
      ht.2.2.2.2.2.1.trans hset.2.2.2.2.2.1, ht.2.2.2.2.2.2.1.trans hset.2.2.2.2.2.2.1,
      ht.2.2.2.2.2.2.2.1.trans hset.2.2.2.2.2.2.2.1,
      ht.2.2.2.2.2.2.2.2.1.trans hset.2.2.2.2.2.2.2.2.1,
      ht.2.2.2.2.2.2.2.2.2.trans hset.2.2.2.2.2.2.2.2.2⟩

theorem as_variant_checksums_fold_spec (l : List (Nat × String)) (r : AsRelease) :
    as_variant_checksums_fold r l =
      { r with checksums := r.checksums ++ l.map (fun e => { kind := e.1, payload := e.2 }) } := by
  induction l generalizing r with
  | nil => simp [as_variant_checksums_fold]
  | cons e t ih =>
    simp only [as_variant_checksums_fold, List.foldl_cons, as_checksum_set_from_variant] at ih ⊢
    rw [ih]
    simp [as_release_add_checksum]

theorem as_release_set_description_frame (r : AsRelease) (d locale : Option String) :
    (as_release_set_description r d locale).kind = r.kind
    ∧ (as_release_set_description r d locale).version = r.version
    ∧ (as_release_set_description r d locale).timestamp = r.timestamp
    ∧ (as_release_set_description r d locale).urgency = r.urgency := by
  unfold as_release_set_description
  exact ⟨rfl, rfl, rfl, rfl⟩

theorem as_release_parse_xml_metainfo_description_frame (l : List (String × String))
    (r : AsRelease) :
    (as_release_parse_xml_metainfo_description r l).kind = r.kind
    ∧ (as_release_parse_xml_metainfo_description r l).version = r.version
    ∧ (as_release_parse_xml_metainfo_description r l).timestamp = r.timestamp
    ∧ (as_release_parse_xml_metainfo_description r l).urgency = r.urgency := by
  induction l generalizing r with
  | nil => exact ⟨rfl, rfl, rfl, rfl⟩
  | cons p t ih =>
    have hset := as_release_set_description_frame r (some p.2) (some p.1)
    have ht := ih (as_release_set_description r (some p.2) (some p.1))
    simp only [as_release_parse_xml_metainfo_description, List.foldl_cons] at ht ⊢
    exact ⟨ht.1.trans hset.1, ht.2.1.trans hset.2.1, ht.2.2.1.trans hset.2.2.1,
      ht.2.2.2.trans hset.2.2.2⟩

theorem as_release_load_xml_child_scalar_frame (ctx : AsContext) (r : AsRelease)
    (c : XmlChild) :
    (as_release_load_xml_child ctx r c).kind = r.kind
    ∧ (as_release_load_xml_child ctx r c).version = r.version
    ∧ (as_release_load_xml_child ctx r c).timestamp = r.timestamp
    ∧ (as_release_load_xml_child ctx r c).urgency = r.urgency := by
  cases c with
  | location content => exact ⟨rfl, rfl, rfl, rfl⟩
  | checksum subload =>
    cases subload with
    | some cs => exact ⟨rfl, rfl, rfl, rfl⟩
    | none => exact ⟨rfl, rfl, rfl, rfl⟩
  | size typeAttr content =>
    simp only [as_release_load_xml_child]
    split_ifs with h1 h2
    · obtain ⟨hk, hv, -, ht, -, -, -, -, hu, -⟩ := as_release_set_size_frame r
        (g_ascii_strtoull content) (as_size_kind_from_string typeAttr)
      exact ⟨hk, hv, ht, hu⟩
    · exact ⟨rfl, rfl, rfl, rfl⟩
    · exact ⟨rfl, rfl, rfl, rfl⟩
  | description langAttr markup localized =>
    simp only [as_release_load_xml_child]
    split_ifs with h1
    · cases langAttr with
      | some lang => exact as_release_set_description_frame r (some markup) (some lang)
      | none => exact ⟨rfl, rfl, rfl, rfl⟩
    · exact as_release_parse_xml_metainfo_description_frame localized r
  | other name => exact ⟨rfl, rfl, rfl, rfl⟩

theorem xml_children_foldl_scalar_frame (ctx : AsContext) (l : List XmlChild)
    (r : AsRelease) :
    (l.foldl (as_release_load_xml_child ctx) r).kind = r.kind
    ∧ (l.foldl (as_release_load_xml_child ctx) r).version = r.version
    ∧ (l.foldl (as_release_load_xml_child ctx) r).timestamp = r.timestamp
    ∧ (l.foldl (as_release_load_xml_child ctx) r).urgency = r.urgency := by
  induction l generalizing r with
  | nil => exact ⟨rfl, rfl, rfl, rfl⟩
  | cons c t ih =>
    have hc := as_release_load_xml_child_scalar_frame ctx r c
    have ht := ih (as_release_load_xml_child ctx r c)
    simp only [List.foldl_cons] at ht ⊢
    exact ⟨ht.1.trans hc.1, ht.2.1.trans hc.2.1, ht.2.2.1.trans hc.2.2.1,
      ht.2.2.2.trans hc.2.2.2⟩

/-- Full characterization of the scalar fields produced by the XML load
routine: version is overwritten unconditionally from the attribute; kind,
urgency only change when their attribute is present; the timestamp is the
`timestamp` attribute when present, else the parsed `date` attribute when it
parses, else the prior value. -/
theorem as_release_load_from_xml_scalar_spec (r : AsRelease) (ctx : AsContext)
    (node : XmlNode) :
    (as_release_load_from_xml r ctx node).2.version = xmlGetProp node "version"
    ∧ (as_release_load_from_xml r ctx node).2.kind =
        (match xmlGetProp node "type" with
         | some p => as_release_kind_from_string (some p)
         | none => r.kind)
    ∧ (as_release_load_from_xml r ctx node).2.urgency =
        (match xmlGetProp node "urgency" with
         | some p => as_urgency_kind_from_string (some p)
         | none => r.urgency)
    ∧ (as_release_load_from_xml r ctx node).2.timestamp =
        (match xmlGetProp node "timestamp" with
         | some p => atol p
         | none =>
           match xmlGetProp node "date" with
           | some d =>
             match as_iso8601_to_datetime d with
             | some t => t
             | none => r.timestamp
           | none => r.timestamp) := by
  have hfold := xml_children_foldl_scalar_frame ctx node.children
  simp only [as_release_load_from_xml]
  cases h3 : xmlGetProp node "date" with
  | none =>
    cases h1 : xmlGetProp node "type" <;>
      cases h5 : xmlGetProp node "timestamp" <;>
        cases h6 : xmlGetProp node "urgency" <;>
          (refine ⟨?_, ?_, ?_, ?_⟩ <;>
            simp [hfold, as_release_set_context, as_release_set_version])
  | some d =>
    cases h4 : as_iso8601_to_datetime d <;>
      cases h1 : xmlGetProp node "type" <;>
        cases h5 : xmlGetProp node "timestamp" <;>
          cases h6 : xmlGetProp node "urgency" <;>
            (refine ⟨?_, ?_, ?_, ?_⟩ <;>
              simp [hfold, as_release_set_context, as_release_set_version, h4])

/-- Full spec of the sizes-dictionary fold: the unknown slot is never written,
the download/installed slots take the last dictionary entry with the matching
kind. -/
theorem as_variant_sizes_fold_spec (l : List (Nat × Nat)) (r : AsRelease) :
    as_variant_sizes_fold r l =
      { r with
        size_download := l.foldl (fun acc e => if e.1 = 1 then e.2 else acc) r.size_download
        size_installed := l.foldl (fun acc e => if e.1 = 2 then e.2 else acc) r.size_installed } := by
  induction l generalizing r with
  | nil => rfl
  | cons e t ih =>
    obtain ⟨k, s⟩ := e
    simp only [as_variant_sizes_fold, List.foldl_cons] at ih ⊢
    rw [ih]
    unfold as_release_set_size
    split_ifs <;> first | rfl | (exfalso; omega)

/-! ## Claims -/

/-- C1: when an XML release element carries both a `date` and a `timestamp`
attribute, the timestamp of the loaded record equals the (later-scanned) `timestamp`
value of that attribute — the `date`-derived value is overwritten. -/
theorem C1_xml_timestamp_attribute_wins (r : AsRelease) (ctx : AsContext) (node : XmlNode)
    (d t : String) (hdate : xmlGetProp node "date" = some d)
    (hts : xmlGetProp node "timestamp" = some t) :
    (as_release_load_from_xml r ctx node).2.timestamp = atol t := by
  have h := (as_release_load_from_xml_scalar_spec r ctx node).2.2.2
  rw [hts] at h
  exact h

/-- C1 witness: with `date="2020-01-01"` and `timestamp="500"` the loaded
timestamp is 500. -/
theorem C1_xml_timestamp_attribute_wins_witness :
    (as_release_load_from_xml as_release_new ctxCollection xmlPrecedenceNode).2.timestamp = 500 := by
  have h := C1_xml_timestamp_attribute_wins as_release_new ctxCollection xmlPrecedenceNode
    "2020-01-01" "500" rfl rfl
  rw [h]
  decide

/-- C3: `getDescription` returns the active-locale entry when one exists, else
the `"C"` entry when that exists, else absent. -/
theorem C3_get_description_locale_fallback (r : AsRelease) :
    (∀ d, hashLookup r.description (as_release_get_active_locale r) = some d →
        as_release_get_description r = some d)
    ∧ (hashLookup r.description (as_release_get_active_locale r) = none →
        (∀ d, hashLookup r.description "C" = some d →
            as_release_get_description r = some d)
        ∧ (hashLookup r.description "C" = none → as_release_get_description r = none)) := by
  constructor
  · intro d hd
    simp [as_release_get_description, hd]
  · intro hnone
    constructor
    · intro d hd
      simp [as_release_get_description, hnone, hd]
    · intro hc
      simp [as_release_get_description, hnone, hc]

/-- C3 witness: with an active-locale entry present it is returned. -/
theorem C3_get_description_locale_fallback_witness :
    hashLookup relGermanLookup.description (as_release_get_active_locale relGermanLookup) =
        some "Hallo"
    ∧ as_release_get_description relGermanLookup = some "Hallo" :=
  ⟨rfl, (C3_get_description_locale_fallback relGermanLookup).1 "Hallo" rfl⟩

/-- C4: for valid size kinds (Download = 1, Installed = 2) `setSize` then
`getSize` returns the stored value; for the Unknown sentinel (0) or an
out-of-range kind, `setSize` leaves the whole record unchanged. -/
theorem C4_set_size_get_size (r : AsRelease) (kind value : Nat) :
    ((kind = 1 ∨ kind = 2) → 0 < value →
        as_release_get_size (as_release_set_size r value kind) kind = value)
    ∧ ((kind = 0 ∨ 3 ≤ kind) → as_release_set_size r value kind = r) := by
  constructor
  · rintro (rfl | rfl) _ <;> simp [as_release_set_size, as_release_get_size]
  · rintro (rfl | h3)
    · simp [as_release_set_size]
    · have : ¬kind < 3 := by omega
      simp [as_release_set_size, this]

/-- C4 witness: storing 2048 under Download reads back as 2048; a `setSize`
with the Unknown sentinel is a no-op. -/
theorem C4_set_size_get_size_witness :
    ((1 = 1 ∨ 1 = 2) ∧
      as_release_get_size (as_release_set_size as_release_new 2048 1) 1 = 2048)
    ∧ ((0 = 0 ∨ 3 ≤ 0) ∧ as_release_set_size as_release_new 7 0 = as_release_new) :=
  ⟨⟨Or.inl rfl, (C4_set_size_get_size as_release_new 1 2048).1 (Or.inl rfl) (by decide)⟩,
   ⟨Or.inl rfl, (C4_set_size_get_size as_release_new 0 7).2 (Or.inl rfl)⟩⟩

/-- C5: `activeLocale` resolution order — per-instance override first, then the
locale of the attached context, then the literal `"C"`. -/
theorem C5_active_locale_resolution (r : AsRelease) :
    (∀ l, r.active_locale_override = some l → as_release_get_active_locale r = l)
    ∧ (∀ ctx l, r.active_locale_override = none → r.context = some ctx →
        ctx.locale = some l → as_release_get_active_locale r = l)
    ∧ (r.active_locale_override = none →
        (r.context = none ∨ ∀ ctx, r.context = some ctx → ctx.locale = none) →
        as_release_get_active_locale r = "C") := by
  refine ⟨?_, ?_, ?_⟩
  · intro l hl
    cases hc : r.context <;> simp [as_release_get_active_locale, hl, hc]
  · intro ctx l ho hc hloc
    simp [as_release_get_active_locale, ho, hc, hloc]
  · intro ho hctx
    rcases hctx with hc | hloc
    · simp [as_release_get_active_locale, ho, hc]
    · cases hc : r.context with
      | none => simp [as_release_get_active_locale, ho, hc]
      | some ctx => simp [as_release_get_active_locale, ho, hc, hloc ctx hc]

/-- C5 witness: the override wins. -/
theorem C5_active_locale_resolution_witness :
    relGermanLookup.active_locale_override = some "de"
    ∧ as_release_get_active_locale relGermanLookup = "de" :=
  ⟨rfl, (C5_active_locale_resolution relGermanLookup).1 "de" rfl⟩

/-- C6: `setContext` stores the new context, unconditionally clears the
per-instance locale override, and changes no other field. -/
theorem C6_set_context_clears_override (r : AsRelease) (ctx : AsContext) :
    (as_release_set_context r ctx).context = some ctx
    ∧ (as_release_set_context r ctx).active_locale_override = none
    ∧ (as_release_set_context r ctx).kind = r.kind
    ∧ (as_release_set_context r ctx).version = r.version
    ∧ (as_release_set_context r ctx).description = r.description
    ∧ (as_release_set_context r ctx).timestamp = r.timestamp
    ∧ (as_release_set_context r ctx).urgency = r.urgency
    ∧ (as_release_set_context r ctx).locations = r.locations
    ∧ (as_release_set_context r ctx).checksums = r.checksums
    ∧ (as_release_set_context r ctx).size_unknown = r.size_unknown
    ∧ (as_release_set_context r ctx).size_download = r.size_download
    ∧ (as_release_set_context r ctx).size_installed = r.size_installed :=
  ⟨rfl, rfl, rfl, rfl, rfl, rfl, rfl, rfl, rfl, rfl, rfl, rfl⟩

/-- C10 (implicit): the XML load overwrites `version` unconditionally from the
`version` attribute (absent attribute ⇒ version becomes unset), while `type`,
`date`/`timestamp` and `urgency` modify the record only when present. -/
theorem C10_xml_version_overwritten_unconditionally (r : AsRelease) (ctx : AsContext)
    (node : XmlNode) :
    (as_release_load_from_xml r ctx node).2.version = xmlGetProp node "version"
    ∧ (xmlGetProp node "type" = none →
        (as_release_load_from_xml r ctx node).2.kind = r.kind)
    ∧ (xmlGetProp node "date" = none → xmlGetProp node "timestamp" = none →
        (as_release_load_from_xml r ctx node).2.timestamp = r.timestamp)
    ∧ (xmlGetProp node "urgency" = none →
        (as_release_load_from_xml r ctx node).2.urgency = r.urgency) := by
  obtain ⟨hv, hk, hu, ht⟩ := as_release_load_from_xml_scalar_spec r ctx node
  refine ⟨hv, ?_, ?_, ?_⟩
  · intro h
    rw [hk, h]
  · intro h1 h2
    rw [ht, h2, h1]
  · intro h
    rw [hu, h]

/-- C10 witness: loading an attribute-free element erases a previously stored
version and leaves kind, timestamp and urgency at their prior values. -/
theorem C10_xml_version_overwritten_unconditionally_witness :
    (as_release_load_from_xml relPrefilled ctxCollection xmlEmptyNode).2.version = none
    ∧ (as_release_load_from_xml relPrefilled ctxCollection xmlEmptyNode).2.kind = 2
    ∧ (as_release_load_from_xml relPrefilled ctxCollection xmlEmptyNode).2.timestamp = 42
    ∧ (as_release_load_from_xml relPrefilled ctxCollection xmlEmptyNode).2.urgency = 3 := by
  obtain ⟨h1, h2, h3, h4⟩ :=
    C10_xml_version_overwritten_unconditionally relPrefilled ctxCollection xmlEmptyNode
  exact ⟨h1, h2 rfl, h3 rfl rfl, h4 rfl⟩

/-- C9: field-level parse failures are never fatal.  Both load routines report
success on every node; a malformed `date` with no `timestamp` attribute leaves
the timestamp at its prior value (in XML and in YAML); a `size` child whose
type attribute is unknown or missing is skipped whole; a `checksum` child
whose sub-parse fails is skipped. -/
theorem C9_field_failures_nonfatal (r : AsRelease) (ctx : AsContext) (node : XmlNode)
    (ynode : YamlNode) :
    (as_release_load_from_xml r ctx node).1 = true
    ∧ (as_release_load_from_yaml r ctx ynode).1 = true
    ∧ (∀ d, xmlGetProp node "date" = some d → as_iso8601_to_datetime d = none →
        xmlGetProp node "timestamp" = none →
        (as_release_load_from_xml r ctx node).2.timestamp = r.timestamp)
    ∧ (∀ t c, as_size_kind_from_string t = 0 →
        as_release_load_xml_child ctx r (XmlChild.size t c) = r)
    ∧ as_release_load_xml_child ctx r (XmlChild.checksum none) = r
    ∧ (∀ v loc, as_iso8601_to_datetime v = none →
        as_release_load_yaml_child ctx r { key := "date", value := some v, localized := loc } = r) := by
  refine ⟨rfl, rfl, ?_, ?_, rfl, ?_⟩
  · intro d hdate hiso hts
    have h := (as_release_load_from_xml_scalar_spec r ctx node).2.2.2
    simp only [hts, hdate, hiso] at h
    exact h
  · intro t c h0
    simp [as_release_load_xml_child, h0]
  · intro v loc hiso
    simp [as_release_load_yaml_child, hiso]

/-- C9 witness: a malformed date attribute is ignored (timestamp stays 0), the
loads still succeed, and bogus size / failing checksum children are no-ops. -/
theorem C9_field_failures_nonfatal_witness :
    (as_release_load_from_xml as_release_new ctxCollection xmlBadDateNode).1 = true
    ∧ (as_release_load_from_xml as_release_new ctxCollection xmlBadDateNode).2.timestamp = 0
    ∧ (as_release_load_from_yaml as_release_new ctxCollection yamlEmptyNode).1 = true
    ∧ as_release_load_xml_child ctxCollection as_release_new
        (XmlChild.size (some "bogus") "12") = as_release_new
    ∧ as_release_load_xml_child ctxCollection as_release_new
        (XmlChild.checksum none) = as_release_new
    ∧ as_release_load_yaml_child ctxCollection as_release_new
        { key := "date", value := some "not-a-date", localized := none } = as_release_new := by
  obtain ⟨h1, h2, h3, h4, h5, h6⟩ :=
    C9_field_failures_nonfatal as_release_new ctxCollection xmlBadDateNode yamlEmptyNode
  exact ⟨h1, h3 "not-a-date" rfl (by decide) rfl, h2,
    h4 (some "bogus") "12" (by decide), h5, h6 "not-a-date" none (by decide)⟩

/-- C2: loading a binary cache entry always completes, and the scalar fields
are read independently of every other key: an absent `kind` / `timestamp` /
`urgency` key leaves the corresponding field at zero (Unknown), an absent
`version` key reads as unset, an absent `locations` / `checksums` key leaves
those containers empty. -/
theorem C2_variant_absent_keys_default (v : RelVariant) (locale : Option String) :
    (as_release_set_from_variant as_release_new v locale).1 = true
    ∧ (as_release_set_from_variant as_release_new v locale).2.kind = (v.kind).getD 0
    ∧ (as_release_set_from_variant as_release_new v locale).2.timestamp = (v.timestamp).getD 0
    ∧ (as_release_set_from_variant as_release_new v locale).2.urgency = (v.urgency).getD 0
    ∧ (as_release_set_from_variant as_release_new v locale).2.version = (v.version).getD none
    ∧ (as_release_set_from_variant as_release_new v locale).2.locations = (v.locations).getD []
    ∧ (as_release_set_from_variant as_release_new v locale).2.checksums =
        ((v.checksums).getD []).map (fun e => { kind := e.1, payload := e.2 }) := by
  refine ⟨rfl, ?_, ?_, ?_, ?_, ?_, ?_⟩ <;>
    simp [as_release_set_from_variant, as_variant_checksums_fold_spec,
      as_variant_sizes_fold_spec, as_release_set_active_locale, as_release_set_version,
      as_release_set_description, as_release_new]

/-- C7: the binary cache stores only the single description string active at
serialization time; reloading that entry makes the stored string the supplied
entry for the supplied locale, whatever that locale is, because the active locale is set
before the description is written back. -/
theorem C7_variant_description_single_locale :
    (as_release_to_variant relGermanText).description = some (some "Text")
    ∧ as_release_get_description
        (as_release_set_from_variant as_release_new
          (as_release_to_variant relGermanText) (some "de")).2 = some "Text"
    ∧ as_release_get_description
        (as_release_set_from_variant as_release_new
          (as_release_to_variant relGermanText) (some "fr")).2 = some "Text"
    ∧ hashLookup
        (as_release_set_from_variant as_release_new
          (as_release_to_variant relGermanText) (some "fr")).2.description "fr" =
        some "Text"
    ∧ (as_release_set_from_variant as_release_new
          (as_release_to_variant relGermanText) (some "fr")).2.active_locale_override =
        some "fr" :=
  ⟨rfl, rfl, rfl, rfl, rfl⟩

theorem as_variant_from_string_ptrarray_getD (l : List String) :
    (as_variant_from_string_ptrarray l).getD [] = l := by
  cases l <;> simp [as_variant_from_string_ptrarray]

theorem if_isEmpty_getD {α : Type} (l : List α) :
    (if l.isEmpty then (none : Option (List α)) else some l).getD [] = l := by
  cases l <;> simp

theorem checksums_map_roundtrip (cs : List AsChecksum) :
    (cs.map as_checksum_to_variant).map
        (fun e => ({ kind := e.1, payload := e.2 } : AsChecksum)) = cs := by
  induction cs with
  | nil => rfl
  | cons c t ih => simp [as_checksum_to_variant, ih]

theorem sizesVariantList_foldl_download (r : AsRelease) (h0 : r.size_unknown = 0) :
    (sizesVariantList r).foldl (fun acc e => if e.1 = 1 then e.2 else acc) 0 =
      r.size_download := by
  by_cases hd : 0 < r.size_download <;> by_cases hi : 0 < r.size_installed <;>
    simp [sizesVariantList, as_release_get_size, h0, hd, hi] <;> omega

theorem sizesVariantList_foldl_installed (r : AsRelease) (h0 : r.size_unknown = 0) :
    (sizesVariantList r).foldl (fun acc e => if e.1 = 2 then e.2 else acc) 0 =
      r.size_installed := by
  by_cases hd : 0 < r.size_download <;> by_cases hi : 0 < r.size_installed <;>
    simp [sizesVariantList, as_release_get_size, h0, hd, hi] <;> omega

theorem checksums_comp_map_roundtrip (t : List AsChecksum) :
    List.map ((fun e => ({ kind := e.1, payload := e.2 } : AsChecksum)) ∘
        as_checksum_to_variant) t = t := by
  induction t with
  | nil => rfl
  | cons c cs ih => simp [Function.comp, as_checksum_to_variant, ih]

theorem checksums_variant_getD (cs : List AsChecksum) :
    (((if cs.isEmpty then (none : Option (List (Nat × String)))
        else some (cs.map as_checksum_to_variant)).getD []).map
      (fun e => ({ kind := e.1, payload := e.2 } : AsChecksum))) = cs := by
  cases cs with
  | nil => rfl
  | cons c t => simpa using checksums_map_roundtrip (c :: t)

/-- Characterization of the record obtained by reloading a fresh release from
the cache entry a record `r` serializes to: every field of `r` that the cache
format covers comes back, the description collapses to a single entry stored
under the supplied locale (or `"C"` when none is supplied). -/
theorem variant_reload_eq (r : AsRelease) (locale : Option String)
    (h0 : r.size_unknown = 0) :
    (as_release_set_from_variant as_release_new (as_release_to_variant r) locale).2 =
      { kind := r.kind
        version := r.version
        description := [(locale.getD "C", as_release_get_description r)]
        timestamp := r.timestamp
        context := none
        active_locale_override := locale
        locations := r.locations
        checksums := r.checksums
        size_unknown := 0
        size_download := r.size_download
        size_installed := r.size_installed
        urgency := r.urgency } := by
  simp only [as_release_set_from_variant, as_release_to_variant,
    as_release_set_active_locale, as_release_set_version, as_release_set_description,
    as_release_new, Option.getD_some, if_isEmpty_getD, as_variant_from_string_ptrarray_getD]
  rw [as_variant_sizes_fold_spec, as_variant_checksums_fold_spec]
  simp only [checksums_map_roundtrip, sizesVariantList_foldl_download r h0,
    sizesVariantList_foldl_installed r h0]
  cases locale <;>
    (simp [as_release_get_active_locale, hashInsert_nil,
       sizesVariantList_foldl_download r h0, sizesVariantList_foldl_installed r h0] <;>
     cases hcs : r.checksums <;>
       simp [checksums_map_roundtrip, checksums_comp_map_roundtrip, as_checksum_to_variant])

theorem get_description_single_key (r : AsRelease) (D : Option String)
    (hdesc : r.description = [(as_release_get_active_locale r, D)]) :
    as_release_get_description r = D := by
  cases D with
  | some d =>
    simp [as_release_get_description, hdesc, hashLookup_singleton_self]
  | none =>
    simp [as_release_get_description, hdesc, hashLookup_singleton_self,
      hashLookup_singleton_none]

/-- C8: for the binary cache format, serializing a record, loading the entry
into a fresh record under any fixed locale and serializing again reproduces the
first cache entry exactly.  The hypothesis `size_unknown = 0` is the invariant
every release record built through the accessors satisfies (the unknown size
slot is initialized to 0 and `as_release_set_size` refuses to write it). -/
theorem C8_variant_roundtrip_idempotent (r : AsRelease) (locale : Option String)
    (h0 : r.size_unknown = 0) :
    as_release_to_variant
        (as_release_set_from_variant as_release_new (as_release_to_variant r) locale).2 =
      as_release_to_variant r := by
  rw [variant_reload_eq r locale h0]
  have hactive : as_release_get_active_locale
      { kind := r.kind
        version := r.version
        description := [(locale.getD "C", as_release_get_description r)]
        timestamp := r.timestamp
        context := none
        active_locale_override := locale
        locations := r.locations
        checksums := r.checksums
        size_unknown := 0
        size_download := r.size_download
        size_installed := r.size_installed
        urgency := r.urgency } = locale.getD "C" := by
    cases locale <;> simp [as_release_get_active_locale]
  have hdesc := get_description_single_key
    { kind := r.kind
      version := r.version
      description := [(locale.getD "C", as_release_get_description r)]
      timestamp := r.timestamp
      context := none
      active_locale_override := locale
      locations := r.locations
      checksums := r.checksums
      size_unknown := 0
      size_download := r.size_download
      size_installed := r.size_installed
      urgency := r.urgency } (as_release_get_description r) (by rw [hactive])
  have hsz : sizesVariantList
      { kind := r.kind
        version := r.version
        description := [(locale.getD "C", as_release_get_description r)]
        timestamp := r.timestamp
        context := none
        active_locale_override := locale
        locations := r.locations
        checksums := r.checksums
        size_unknown := 0
        size_download := r.size_download
        size_installed := r.size_installed
        urgency := r.urgency } = sizesVariantList r := by
    simp [sizesVariantList, as_release_get_size, h0]
  simp only [as_release_to_variant, hdesc, hsz]

/-- C8 witness: a populated record (two checksums of the same kind, duplicate
locations, a download size) round-trips byte-for-byte. -/
theorem C8_variant_roundtrip_idempotent_witness :
    relPopulated.size_unknown = 0
    ∧ as_release_to_variant
        (as_release_set_from_variant as_release_new
          (as_release_to_variant relPopulated) (some "C")).2 =
      as_release_to_variant relPopulated :=
  ⟨rfl, C8_variant_roundtrip_idempotent relPopulated (some "C") rfl⟩
